import Mathlib

/-!
Verification of the configuration-resolution utility and the lazy database
handle of the tanstack-drizzle-shadcn-nitro-starter repository.

The embedding mirrors `src/lib/env.ts` (functions `getCloudflareEnv`,
`getImportMetaEnv`, `getEnvVar`, `getEnvVarSync`, `getD1Binding`,
`getCloudflareEnvBindings`) and `db/index.ts` (functions `initLocalDb`,
`getDb`).  JavaScript dynamic values are modelled by `JSVal`; the ambient
runtime sources (the `cloudflare:workers` module, `import.meta.env`,
`process.env`, and the current request context) are gathered in a `World`
record, so every function becomes a pure function of the world and its
arguments.  `getDb`'s process-wide mutable cell pair
(`dbInstance`, `initPromise`) is modelled by `DbState`, and the synchronous
prologue of a `getDb` call (which in the single-threaded async interleaving
model runs atomically, with no suspension point between the checks and the
assignment of `initPromise`) by `getDbPrologue`.
-/

/-- A JavaScript runtime value, as far as the resolver can observe it:
strings, numbers, booleans, and opaque object references (identified by a
tag so equality is decidable).  `undefined` / `null` are modelled by
`Option JSVal` being `none` at the use sites. -/
inductive JSVal where
  | str (s : String)
  | num (n : Int)
  | bool (b : Bool)
  | obj (tag : Nat)
deriving DecidableEq

/-- JavaScript truthiness of a value: empty strings, `0` and `false` are
falsy; every object is truthy. -/
def JSVal.truthy : JSVal → Bool
  | .str s => !s.isEmpty
  | .num n => decide (n ≠ 0)
  | .bool b => b
  | .obj _ => true

/-- The `String(v)` conversion applied by `getEnvVar` to values read from
`import.meta.env`. -/
def JSVal.jsToString : JSVal → String
  | .str s => s
  | .num n => toString n
  | .bool b => if b then "true" else "false"
  | .obj _ => "[object Object]"

/-- Whether a value is a string (`getEnvVar` declares a string-or-undefined
return type). -/
def JSVal.isStr : JSVal → Bool
  | .str _ => true
  | _ => false

/-- A key-value environment object (`process.env`, `import.meta.env`, a
Cloudflare binding set, ...).  A key not in the list reads as `undefined`. -/
def Env : Type := List (String × JSVal)

instance : DecidableEq Env := by unfold Env; infer_instance

/-- Property read `e[k]` on an environment object: `none` is `undefined`. -/
def envLookup (e : Env) (k : String) : Option JSVal :=
  (e.find? (fun p => p.1 == k)).map (fun p => p.2)

/-- Truthiness of a possibly-undefined property read (`undefined` is falsy). -/
def truthyOpt : Option JSVal → Bool
  | some v => v.truthy
  | none => false

/-- Optional-chained property read `o?.[k]`. -/
def ctxLookup (oe : Option Env) (k : String) : Option JSVal :=
  oe.bind (fun e => envLookup e k)

/-- The caller-supplied context object, reduced to the four attachment
points the source probes: `context.env`, `context.cloudflare.env`,
`context.platform.env`, and the context's own direct properties (used both
for `context.DB` and for `context[name]`). -/
structure Ctx where
  env : Option Env
  cloudflare : Option Env
  platform : Option Env
  self : Env
deriving DecidableEq

/-- The ambient runtime state a call executes in: the environment exported
by the `cloudflare:workers` module when the dynamic import succeeds (`none`
when the import throws), `import.meta.env` when available, `process.env`
when available, and the request context `getRequest()` returns (`none` when
`getRequest` throws). -/
structure World where
  cfModule : Option Env
  importMetaEnv : Option Env
  processEnv : Option Env
  request : Option Ctx
deriving DecidableEq

/-- Whether an attachment point exists and carries a truthy `DB` field
(the check `context.env?.DB` etc. in `getCloudflareEnv`). -/
def hasDBMarker (oe : Option Env) : Bool :=
  truthyOpt (ctxLookup oe "DB")

/-- `getCloudflareEnv(context)` from `src/lib/env.ts`: probe
`context.env`, `context.cloudflare.env`, `context.platform.env` for a
truthy `DB` binding, then the context itself, and finally fall back to the
dynamic `import('cloudflare:workers')` probe, whose failure yields `null`
(here `none`). -/
def getCloudflareEnv (w : World) (context : Option Ctx) : Option Env :=
  match context with
  | some c =>
    if hasDBMarker c.env then c.env
    else if hasDBMarker c.cloudflare then c.cloudflare
    else if hasDBMarker c.platform then c.platform
    else if truthyOpt (envLookup c.self "DB") then some c.self
    else w.cfModule
  | none => w.cfModule

/-- The `process.env` step of `getEnvVar` / `getEnvVarSync`:
`if (typeof process !== 'undefined' && process.env && process.env[name])
return process.env[name]; return undefined`. -/
def processEnvStep (w : World) (name : String) : Option JSVal :=
  match w.processEnv with
  | some p => if truthyOpt (envLookup p name) then envLookup p name else none
  | none => none

/-- The `import.meta.env` step of `getEnvVar` / `getEnvVarSync` followed by
the `process.env` fallback: a defined value found in `import.meta.env` is
returned through `String(...)`; otherwise resolution continues with
`process.env`. -/
def importMetaStep (w : World) (name : String) : Option JSVal :=
  match w.importMetaEnv with
  | some m =>
    match envLookup m name with
    | some v => some (.str v.jsToString)
    | none => processEnvStep w name
  | none => processEnvStep w name

/-- `getEnvVar(name, context)` from `src/lib/env.ts`: discover the
Cloudflare binding set via `getCloudflareEnv`; if it holds a truthy value
for `name`, return it as-is; otherwise fall through to `import.meta.env`
and then `process.env`. -/
def getEnvVar (w : World) (name : String) (context : Option Ctx) : Option JSVal :=
  match getCloudflareEnv w context with
  | some cfEnv =>
    if truthyOpt (envLookup cfEnv name) then envLookup cfEnv name
    else importMetaStep w name
  | none => importMetaStep w name

/-- `getEnvVarSync(name, context)` from `src/lib/env.ts`: check
`context.env?.[name]`, `context.cloudflare?.env?.[name]`,
`context.platform?.env?.[name]`, `context[name]` (each accepted when
truthy), then `import.meta.env`, then `process.env`. -/
def getEnvVarSync (w : World) (name : String) (context : Option Ctx) : Option JSVal :=
  match context with
  | some c =>
    if truthyOpt (ctxLookup c.env name) then ctxLookup c.env name
    else if truthyOpt (ctxLookup c.cloudflare name) then ctxLookup c.cloudflare name
    else if truthyOpt (ctxLookup c.platform name) then ctxLookup c.platform name
    else if truthyOpt (envLookup c.self name) then envLookup c.self name
    else importMetaStep w name
  | none => importMetaStep w name

/-- `getD1Binding(context)` from `src/lib/env.ts`:
`(await getCloudflareEnv(context))?.DB`. -/
def getD1Binding (w : World) (context : Option Ctx) : Option JSVal :=
  (getCloudflareEnv w context).bind (fun e => envLookup e "DB")

/-- `getCloudflareEnvBindings(context)` from `src/lib/env.ts`: returns the
whole discovered binding set. -/
def getCloudflareEnvBindings (w : World) (context : Option Ctx) : Option Env :=
  getCloudflareEnv w context

/-- Modelled from the spec: the synchronous resolver as §4.1 describes it,
namely `resolveAsync` with "the same fixed probe order ... with the same
binding-set discovery rules" on the context but "without the dynamic
edge-runtime module probe".  This is the spec's claimed semantics of
`getEnvVarSync`, kept separate so it can be compared with the source's
actual `getEnvVarSync`. -/
def getEnvVarSyncSpec (w : World) (name : String) (context : Option Ctx) : Option JSVal :=
  let disc : Option Env :=
    match context with
    | some c =>
      if hasDBMarker c.env then c.env
      else if hasDBMarker c.cloudflare then c.cloudflare
      else if hasDBMarker c.platform then c.platform
      else if truthyOpt (envLookup c.self "DB") then some c.self
      else none
    | none => none
  match disc with
  | some cfEnv =>
    if truthyOpt (envLookup cfEnv name) then envLookup cfEnv name
    else importMetaStep w name
  | none => importMetaStep w name

/-- Whether an optional environment object defines key `k` at all. -/
def optEnvHas (oe : Option Env) (k : String) : Bool :=
  (ctxLookup oe k).isSome

/-- Key `k` is absent from every attachment point of the context. -/
def ctxAbsent (c : Option Ctx) (k : String) : Bool :=
  match c with
  | some ctx =>
    !optEnvHas ctx.env k && !optEnvHas ctx.cloudflare k
      && !optEnvHas ctx.platform k && !(envLookup ctx.self k).isSome
  | none => true

/-- Key `k` is absent from every configuration source reachable in world
`w` with context `c`: the ambient module environment, `import.meta.env`,
`process.env`, and all context attachment points. -/
def absentEverywhere (w : World) (c : Option Ctx) (k : String) : Bool :=
  !optEnvHas w.cfModule k && !optEnvHas w.importMetaEnv k
    && !optEnvHas w.processEnv k && ctxAbsent c k

/-- No context attachment point carries a truthy `DB` marker. -/
def noDBMarkerInCtx (c : Ctx) : Bool :=
  !hasDBMarker c.env && !hasDBMarker c.cloudflare && !hasDBMarker c.platform
    && !truthyOpt (envLookup c.self "DB")

/-- The process-wide mutable state of `db/index.ts`: the cached handle
`dbInstance` and the in-flight construction promise `initPromise`.
Handles and promises are identified by numeric tags so that "same
instance" is expressible. -/
structure DbState where
  dbInstance : Option Nat
  initPromise : Option Nat
deriving DecidableEq

/-- What a single `getDb()` call does before its first suspension point:
throw, return the cached instance, or return (an await of) a promise. -/
inductive DbResult where
  | threw (msg : String)
  | value (handle : Nat)
  | awaiting (promise : Nat)
deriving DecidableEq

/-- The synchronous prologue of `getDb()` from `db/index.ts`, which in the
single-threaded async model runs atomically: throw when in a client
context (`typeof window !== 'undefined'`); return `dbInstance` when set;
otherwise return the existing `initPromise`, or install a fresh promise
`freshPromise` as `initPromise` and return it.  The returned flag records
whether this call started a new construction. -/
def getDbPrologue (isClient : Bool) (freshPromise : Nat) (s : DbState) :
    DbResult × DbState × Bool :=
  if isClient then (.threw "Database access is server-only", s, false)
  else
    match s.dbInstance with
    | some h => (.value h, s, false)
    | none =>
      match s.initPromise with
      | some p => (.awaiting p, s, false)
      | none =>
        (.awaiting freshPromise,
          { dbInstance := s.dbInstance, initPromise := some freshPromise }, true)

/-- `n` server-side `getDb()` calls interleaved before any construction
step runs, starting from state `s` with `fresh` the next unused promise
tag: the list of per-call results, the final state, and how many
constructions were started. -/
def runCalls : Nat → DbState → Nat → List DbResult × DbState × Nat
  | 0, s, _ => ([], s, 0)
  | n + 1, s, fresh =>
    let r := getDbPrologue false fresh s
    let rest := runCalls n r.2.1 (fresh + 1)
    (r.1 :: rest.1, rest.2.1, (if r.2.2 then 1 else 0) + rest.2.2)

/-- Completion of the in-flight construction: the async initializer's last
action before resolving is `dbInstance = <handle>`; `initPromise` is left
in place. -/
def settleConstruction (h : Nat) (s : DbState) : DbState :=
  { dbInstance := some h, initPromise := s.initPromise }

/-- Rejection of the in-flight construction: `db/index.ts` attaches no
rejection handler, so a failed initializer leaves both `dbInstance` and
`initPromise` untouched — the rejected promise stays cached. -/
def rejectConstruction (s : DbState) : DbState := s

/-- The database handle `getDb()`'s initializer constructs, as decided by
its branch on the D1 binding. -/
inductive Handle where
  | d1 (binding : JSVal)
  | libsql (url : JSVal) (authToken : Option JSVal)
deriving DecidableEq

/-- The connection URL `initLocalDb` uses:
`(await getEnvVar('LIBSQL_URL', context)) || 'file:./db/app.db'`. -/
def initLocalDbUrl (w : World) (context : Option Ctx) : JSVal :=
  match getEnvVar w "LIBSQL_URL" context with
  | some v => if v.truthy then v else .str "file:./db/app.db"
  | none => .str "file:./db/app.db"

/-- The auth token `initLocalDb` passes to `createClient`: included only
when `getEnvVar('LIBSQL_AUTH_TOKEN', context)` is truthy. -/
def initLocalDbToken (w : World) (context : Option Ctx) : Option JSVal :=
  match getEnvVar w "LIBSQL_AUTH_TOKEN" context with
  | some v => if v.truthy then some v else none
  | none => none

/-- The construction branch of `getDb()`'s initializer: obtain the request
context (`w.request`, `none` when `getRequest()` throws), ask
`getD1Binding` for a D1 binding, use it when truthy, and otherwise build
the local libsql handle via `initLocalDb`. -/
def constructDb (w : World) : Handle :=
  match getD1Binding w w.request with
  | some v =>
    if v.truthy then .d1 v
    else .libsql (initLocalDbUrl w w.request) (initLocalDbToken w w.request)
  | none => .libsql (initLocalDbUrl w w.request) (initLocalDbToken w w.request)

/-- `noDBMarkerInCtx` lifted to an optional context (a missing context
trivially offers no marker). -/
def noDBMarkerInCtxOpt : Option Ctx → Bool
  | some c => noDBMarkerInCtx c
  | none => true

/-- None of the four synchronous context probes of `getEnvVarSync` finds a
truthy value for key `k`. -/
def syncCtxMiss : Option Ctx → String → Bool
  | some c, k =>
    !truthyOpt (ctxLookup c.env k) && !truthyOpt (ctxLookup c.cloudflare k)
      && !truthyOpt (ctxLookup c.platform k) && !truthyOpt (envLookup c.self k)
  | none, _ => true

/-- Key `k` is absent from the three configuration sources themselves: the
edge-runtime binding set (whichever set discovery yields for this world and
context, trivially absent when none is discovered), the build-time static
environment `import.meta.env`, and the process environment `process.env`.
Unlike `absentEverywhere`, this says nothing about context attachment
points that are not the discovered binding set. -/
def absentFromSources (w : World) (c : Option Ctx) (k : String) : Bool :=
  (match getCloudflareEnv w c with
   | some e => !(envLookup e k).isSome
   | none => true)
    && !optEnvHas w.importMetaEnv k && !optEnvHas w.processEnv k

/-- Helper: a discovered binding set is one of the five concrete sources. -/
theorem getCloudflareEnv_cases (w : World) (c : Ctx) (e : Env)
    (h : getCloudflareEnv w (some c) = some e) :
    c.env = some e ∨ c.cloudflare = some e ∨ c.platform = some e
      ∨ e = c.self ∨ w.cfModule = some e := by
  simp only [getCloudflareEnv] at h
  split_ifs at h <;> simp_all

/-- If an attachment point does not define key `k`, reading `k` through it
yields `undefined`. -/
theorem envLookup_of_optEnvHas_false (oe : Option Env) (e : Env) (k : String)
    (hoe : oe = some e) (h : optEnvHas oe k = false) : envLookup e k = none := by
  subst hoe
  simp only [optEnvHas, ctxLookup, Option.some_bind] at h
  cases hl : envLookup e k with
  | none => rfl
  | some v => rw [hl] at h; simp at h

/-- When neither `import.meta.env` nor `process.env` defines `k`, the
shared fallback tail of both resolvers yields `undefined`. -/
theorem importMetaStep_absent (w : World) (k : String)
    (hm : optEnvHas w.importMetaEnv k = false)
    (hp : optEnvHas w.processEnv k = false) :
    importMetaStep w k = none := by
  unfold importMetaStep processEnvStep
  cases hM : w.importMetaEnv with
  | none =>
    cases hP : w.processEnv with
    | none => rfl
    | some p =>
      have := envLookup_of_optEnvHas_false w.processEnv p k hP hp
      simp [this, truthyOpt]
  | some m =>
    have hme := envLookup_of_optEnvHas_false w.importMetaEnv m k hM hm
    cases hP : w.processEnv with
    | none => simp [hme]
    | some p =>
      have := envLookup_of_optEnvHas_false w.processEnv p k hP hp
      simp [hme, this, truthyOpt]

/-- A key absent from every source resolves to `undefined` through
`getEnvVar`. -/
theorem absent_getEnvVar_none (w : World) (c : Option Ctx) (k : String)
    (h : absentEverywhere w c k = true) : getEnvVar w k c = none := by
  unfold absentEverywhere at h
  simp only [Bool.and_eq_true, Bool.not_eq_true'] at h
  obtain ⟨⟨⟨hcf, hmeta⟩, hproc⟩, hctx⟩ := h
  have htail := importMetaStep_absent w k hmeta hproc
  unfold getEnvVar
  cases hd : getCloudflareEnv w c with
  | none => exact htail
  | some e =>
    have he : envLookup e k = none := by
      cases c with
      | none =>
        simp only [getCloudflareEnv] at hd
        exact envLookup_of_optEnvHas_false w.cfModule e k hd hcf
      | some ctx =>
        unfold ctxAbsent at hctx
        simp only [Bool.and_eq_true, Bool.not_eq_true'] at hctx
        obtain ⟨⟨⟨h1, h2⟩, h3⟩, h4⟩ := hctx
        rcases getCloudflareEnv_cases w ctx e hd with hc | hc | hc | hc | hc
        · exact envLookup_of_optEnvHas_false ctx.env e k hc h1
        · exact envLookup_of_optEnvHas_false ctx.cloudflare e k hc h2
        · exact envLookup_of_optEnvHas_false ctx.platform e k hc h3
        · subst hc; simpa [Option.isSome_iff_exists] using h4
        · exact envLookup_of_optEnvHas_false w.cfModule e k hc hcf
    simp [he, truthyOpt, htail]

/-- A key absent from every context attachment point, from
`import.meta.env` and from `process.env` resolves to `undefined` through
`getEnvVarSync` (which never reads the ambient module environment). -/
theorem getEnvVarSync_none_of_ctxAbsent (w : World) (c : Option Ctx) (k : String)
    (hctx : ctxAbsent c k = true)
    (hmeta : optEnvHas w.importMetaEnv k = false)
    (hproc : optEnvHas w.processEnv k = false) : getEnvVarSync w k c = none := by
  have htail := importMetaStep_absent w k hmeta hproc
  cases c with
  | none => simpa [getEnvVarSync] using htail
  | some ctx =>
    unfold ctxAbsent at hctx
    simp only [Bool.and_eq_true, Bool.not_eq_true'] at hctx
    obtain ⟨⟨⟨h1, h2⟩, h3⟩, h4⟩ := hctx
    have e1 : ctxLookup ctx.env k = none := by
      cases he : ctx.env with
      | none => simp [ctxLookup]
      | some e =>
        simp [ctxLookup, envLookup_of_optEnvHas_false ctx.env e k he h1]
    have e2 : ctxLookup ctx.cloudflare k = none := by
      cases he : ctx.cloudflare with
      | none => simp [ctxLookup]
      | some e =>
        simp [ctxLookup, envLookup_of_optEnvHas_false ctx.cloudflare e k he h2]
    have e3 : ctxLookup ctx.platform k = none := by
      cases he : ctx.platform with
      | none => simp [ctxLookup]
      | some e =>
        simp [ctxLookup, envLookup_of_optEnvHas_false ctx.platform e k he h3]
    have e4 : envLookup ctx.self k = none := by
      simpa [Option.isSome_iff_exists] using h4
    simp [getEnvVarSync, e1, e2, e3, e4, truthyOpt, htail]

/-- A key absent from the three configuration sources resolves to
`undefined` through `getEnvVar`, whatever the context holds elsewhere. -/
theorem getEnvVar_none_of_absentFromSources (w : World) (c : Option Ctx)
    (k : String) (h : absentFromSources w c k = true) :
    getEnvVar w k c = none := by
  unfold absentFromSources at h
  simp only [Bool.and_eq_true, Bool.not_eq_true'] at h
  obtain ⟨⟨hdisc, hmeta⟩, hproc⟩ := h
  have htail := importMetaStep_absent w k hmeta hproc
  unfold getEnvVar
  cases hd : getCloudflareEnv w c with
  | none => exact htail
  | some e =>
    rw [hd] at hdisc
    have he : envLookup e k = none := by
      cases hl : envLookup e k with
      | none => rfl
      | some v => simp [hl] at hdisc
    simp [he, truthyOpt, htail]

/-- When no attachment point of the context carries a truthy `DB` marker,
binding-set discovery ignores the context and falls through to the
ambient-module probe. -/
theorem getCloudflareEnv_of_noMarker (w : World) (c : Ctx)
    (h : noDBMarkerInCtx c = true) :
    getCloudflareEnv w (some c) = w.cfModule := by
  unfold noDBMarkerInCtx at h
  simp only [Bool.and_eq_true, Bool.not_eq_true'] at h
  obtain ⟨⟨⟨h1, h2⟩, h3⟩, h4⟩ := h
  simp [getCloudflareEnv, h1, h2, h3, h4]

/-- All `getDb()` prologues that find `initPromise` already populated (and
`dbInstance` still unset) return that same pending promise and leave the
state untouched, starting nothing. -/
theorem runCalls_pending (n : Nat) (p : Nat) :
    ∀ fresh, runCalls n { dbInstance := none, initPromise := some p } fresh
      = (List.replicate n (.awaiting p),
         { dbInstance := none, initPromise := some p }, 0) := by
  induction n with
  | zero => intro fresh; simp [runCalls]
  | succ m ih =>
    intro fresh
    simp [runCalls, getDbPrologue, ih, List.replicate]

/-- C1 (counterexample): with all three sources populated with pairwise
distinct values for `K` and the edge-runtime binding set discovered via
the ambient module, `getEnvVar` nevertheless returns the build-time value
`"x"`, not the edge-runtime value `""`, because the binding set's value is
falsy; the claim as stated is therefore false at this input. -/
theorem c1_priority_counterexample :
    getCloudflareEnv
        ⟨some [("K", JSVal.str "")], some [("K", JSVal.str "x")],
          some [("K", JSVal.str "y")], none⟩ none = some [("K", JSVal.str "")]
    ∧ envLookup [("K", JSVal.str "")] "K" = some (JSVal.str "")
    ∧ envLookup [("K", JSVal.str "x")] "K" = some (JSVal.str "x")
    ∧ envLookup [("K", JSVal.str "y")] "K" = some (JSVal.str "y")
    ∧ JSVal.str "" ≠ JSVal.str "x" ∧ JSVal.str "" ≠ JSVal.str "y"
    ∧ JSVal.str "x" ≠ JSVal.str "y"
    ∧ getEnvVar
        ⟨some [("K", JSVal.str "")], some [("K", JSVal.str "x")],
          some [("K", JSVal.str "y")], none⟩ "K" none
        = some (JSVal.str "x") := by
  decide

/-- C1 (amended): for every key held with a truthy value by the discovered
edge-runtime binding set while the build-time static environment and the
process environment hold their own distinct values for it, `getEnvVar`
returns the edge-runtime value, never the build-time or process value. -/
theorem c1_priority (w : World) (c : Option Ctx) (k : String) (e m p : Env)
    (ve vb vp : JSVal)
    (hdisc : getCloudflareEnv w c = some e)
    (he : envLookup e k = some ve) (ht : ve.truthy = true)
    (_hm : w.importMetaEnv = some m) (_hmk : envLookup m k = some vb)
    (_hp : w.processEnv = some p) (_hpk : envLookup p k = some vp)
    (hne1 : ve ≠ vb) (hne2 : ve ≠ vp) :
    getEnvVar w k c = some ve
      ∧ getEnvVar w k c ≠ some vb ∧ getEnvVar w k c ≠ some vp := by
  have hmain : getEnvVar w k c = some ve := by
    simp [getEnvVar, hdisc, he, truthyOpt, ht]
  refine ⟨hmain, ?_, ?_⟩ <;>
    simp only [hmain, ne_eq, Option.some.injEq] <;> assumption

/-- C1 (witness): the amended priority statement at a concrete world in
which the three sources carry the distinct truthy values `"e"`, `"x"`,
`"y"`. -/
theorem c1_priority_witness :
    getEnvVar
        ⟨some [("K", JSVal.str "e")], some [("K", JSVal.str "x")],
          some [("K", JSVal.str "y")], none⟩ "K" none = some (JSVal.str "e")
    ∧ getEnvVar
        ⟨some [("K", JSVal.str "e")], some [("K", JSVal.str "x")],
          some [("K", JSVal.str "y")], none⟩ "K" none ≠ some (JSVal.str "x")
    ∧ getEnvVar
        ⟨some [("K", JSVal.str "e")], some [("K", JSVal.str "x")],
          some [("K", JSVal.str "y")], none⟩ "K" none ≠ some (JSVal.str "y") :=
  c1_priority
    ⟨some [("K", JSVal.str "e")], some [("K", JSVal.str "x")],
      some [("K", JSVal.str "y")], none⟩ none "K"
    [("K", JSVal.str "e")] [("K", JSVal.str "x")] [("K", JSVal.str "y")]
    (JSVal.str "e") (JSVal.str "x") (JSVal.str "y")
    (by decide) (by decide) (by decide) rfl (by decide) rfl (by decide)
    (by decide) (by decide)

/-- C2: `getDb()` invoked `n ≥ 1` times concurrently from the fresh state
(before the first construction completes) makes every call await the same
promise `p` — hence all callers receive the same handle instance when `p`
settles — starts the underlying construction exactly once, and records the
pending operation itself in `initPromise`; and once `dbInstance` is set,
any later call returns it immediately without touching the state. -/
theorem c2_single_construction (n p : Nat) (s : DbState) (hdl q : Nat)
    (hn : 1 ≤ n) (hs : s.dbInstance = some hdl) :
    runCalls n { dbInstance := none, initPromise := none } p
      = (List.replicate n (.awaiting p),
         { dbInstance := none, initPromise := some p }, 1)
    ∧ getDbPrologue false q s = (.value hdl, s, false) := by
  constructor
  · cases n with
    | zero => exact absurd hn (by simp)
    | succ m =>
      simp [runCalls, getDbPrologue, runCalls_pending, List.replicate]
  · simp [getDbPrologue, hs]

/-- C2 (witness): three concurrent calls from the fresh state all await
promise `0` and start one construction; a call made after `dbInstance`
holds handle `7` returns it immediately. -/
theorem c2_single_construction_witness :
    runCalls 3 { dbInstance := none, initPromise := none } 0
      = (List.replicate 3 (.awaiting 0),
         { dbInstance := none, initPromise := some 0 }, 1)
    ∧ getDbPrologue false 5 { dbInstance := some 7, initPromise := some 0 }
      = (.value 7, { dbInstance := some 7, initPromise := some 0 }, false) :=
  c2_single_construction 3 0 { dbInstance := some 7, initPromise := some 0 } 7 5
    (by decide) rfl

/-- C3 (counterexample): a context whose `env` attachment point carries
only the `DB` marker while `cloudflare.env` carries `K = "y"`.  `getEnvVar`
discovers `context.env` as the binding set (no dynamic module probe is
involved: the ambient module is absent) and resolves `K` from
`import.meta.env` to `"m"`; the spec-described synchronous resolver
`getEnvVarSyncSpec` agrees; but the source's `getEnvVarSync` returns
`"y"`, so `getEnvVarSync` does not apply the binding-set discovery rules
and disagrees with `getEnvVar` even though the dynamic module probe played
no part. -/
theorem c3_sync_counterexample :
    getCloudflareEnv ⟨none, some [("K", JSVal.str "m")], none, none⟩
        (some ⟨some [("DB", JSVal.num 1)],
          some [("DB", JSVal.num 1), ("K", JSVal.str "y")], none, []⟩)
        = some [("DB", JSVal.num 1)]
    ∧ (⟨none, some [("K", JSVal.str "m")], none, none⟩ : World).cfModule = none
    ∧ getEnvVar ⟨none, some [("K", JSVal.str "m")], none, none⟩ "K"
        (some ⟨some [("DB", JSVal.num 1)],
          some [("DB", JSVal.num 1), ("K", JSVal.str "y")], none, []⟩)
        = some (JSVal.str "m")
    ∧ getEnvVarSyncSpec ⟨none, some [("K", JSVal.str "m")], none, none⟩ "K"
        (some ⟨some [("DB", JSVal.num 1)],
          some [("DB", JSVal.num 1), ("K", JSVal.str "y")], none, []⟩)
        = some (JSVal.str "m")
    ∧ getEnvVarSync ⟨none, some [("K", JSVal.str "m")], none, none⟩ "K"
        (some ⟨some [("DB", JSVal.num 1)],
          some [("DB", JSVal.num 1), ("K", JSVal.str "y")], none, []⟩)
        = some (JSVal.str "y")
    ∧ some (JSVal.str "m") ≠ some (JSVal.str "y") := by
  decide

/-- C3 (amended): `getEnvVarSync` probes the same four context attachment
points in the same fixed order but keyed directly by the requested name
with a truthiness test, not by the binding-set discovery rules of
`getEnvVar`; it shares `getEnvVar`'s build-time-then-process tail, so the
spec-described synchronous resolver coincides with `getEnvVar` whenever
the ambient module probe yields nothing, and the source's `getEnvVarSync`
agrees with `getEnvVar` whenever additionally the context yields nothing
under either scheme (no truthy value for the name at any attachment point
and no truthy `DB` marker). -/
theorem c3_sync_restriction (w : World) (k : String) (c : Option Ctx)
    (hmod : w.cfModule = none)
    (hmiss : syncCtxMiss c k = true)
    (hnodb : noDBMarkerInCtxOpt c = true) :
    getEnvVarSyncSpec w k c = getEnvVar w k c
    ∧ getEnvVar w k c = getEnvVarSync w k c := by
  have hdisc : getCloudflareEnv w c = none := by
    cases c with
    | none => simpa [getCloudflareEnv] using hmod
    | some ctx =>
      rw [getCloudflareEnv_of_noMarker w ctx (by simpa [noDBMarkerInCtxOpt] using hnodb)]
      exact hmod
  have hself : getEnvVar w k c = importMetaStep w k := by
    simp [getEnvVar, hdisc]
  have hspec : getEnvVarSyncSpec w k c = importMetaStep w k := by
    cases c with
    | none => simp [getEnvVarSyncSpec]
    | some ctx =>
      have hnodb2 : noDBMarkerInCtx ctx = true := by
        simpa [noDBMarkerInCtxOpt] using hnodb
      unfold noDBMarkerInCtx at hnodb2
      simp only [Bool.and_eq_true, Bool.not_eq_true'] at hnodb2
      obtain ⟨⟨⟨h1, h2⟩, h3⟩, h4⟩ := hnodb2
      simp [getEnvVarSyncSpec, h1, h2, h3, h4]
  have hsync : getEnvVarSync w k c = importMetaStep w k := by
    cases c with
    | none => simp [getEnvVarSync]
    | some ctx =>
      unfold syncCtxMiss at hmiss
      simp only [Bool.and_eq_true, Bool.not_eq_true'] at hmiss
      obtain ⟨⟨⟨m1, m2⟩, m3⟩, m4⟩ := hmiss
      simp [getEnvVarSync, m1, m2, m3, m4]
  rw [hself, hspec, hsync]
  exact ⟨rfl, rfl⟩

/-- C3 (witness): the restricted agreement at a concrete world with
`import.meta.env` holding `K = "m"` and a context that offers neither a
truthy `K` nor a `DB` marker. -/
theorem c3_sync_restriction_witness :
    getEnvVarSyncSpec ⟨none, some [("K", JSVal.str "m")], none, none⟩ "K"
        (some ⟨some [("A", JSVal.num 2)], none, none, []⟩)
      = getEnvVar ⟨none, some [("K", JSVal.str "m")], none, none⟩ "K"
        (some ⟨some [("A", JSVal.num 2)], none, none, []⟩)
    ∧ getEnvVar ⟨none, some [("K", JSVal.str "m")], none, none⟩ "K"
        (some ⟨some [("A", JSVal.num 2)], none, none, []⟩)
      = getEnvVarSync ⟨none, some [("K", JSVal.str "m")], none, none⟩ "K"
        (some ⟨some [("A", JSVal.num 2)], none, none, []⟩) :=
  c3_sync_restriction ⟨none, some [("K", JSVal.str "m")], none, none⟩ "K"
    (some ⟨some [("A", JSVal.num 2)], none, none, []⟩)
    rfl (by decide) (by decide)

/-- C4: a failing construction leaves the in-flight guard populated.  From
the fresh state, the first `getDb()` call installs promise `0` and starts
the construction; when that construction rejects, `db/index.ts` clears
nothing (`rejectConstruction` is the identity), so `initPromise` still
holds the rejected promise `0` and the next `getDb()` call returns that
same rejected promise without starting a fresh construction — contrary to
the claim that the guard is cleared and a retry begins. -/
theorem c4_rejected_promise_cached :
    getDbPrologue false 0 { dbInstance := none, initPromise := none }
      = (.awaiting 0, { dbInstance := none, initPromise := some 0 }, true)
    ∧ rejectConstruction { dbInstance := none, initPromise := some 0 }
      = { dbInstance := none, initPromise := some 0 }
    ∧ (rejectConstruction
        { dbInstance := none, initPromise := some 0 }).initPromise = some 0
    ∧ getDbPrologue false 1
        (rejectConstruction { dbInstance := none, initPromise := some 0 })
      = (.awaiting 0, { dbInstance := none, initPromise := some 0 }, false) := by
  decide

/-- C5 (counterexample): with `context.cloudflare.env = {K: 'y'}`, no `DB`
marker anywhere, the ambient module absent, and `K` defined in neither
`import.meta.env` nor `process.env`, no binding set is discovered, so `K`
is absent from all three configuration sources — yet `getEnvVarSync`
returns `'y'` through its name-keyed context probe instead of `undefined`,
so the claim as stated is false at this input (`getEnvVar` does return
`undefined`). -/
theorem c5_sync_context_counterexample :
    getCloudflareEnv ⟨none, none, none, none⟩
        (some ⟨none, some [("K", JSVal.str "y")], none, []⟩) = none
    ∧ absentFromSources ⟨none, none, none, none⟩
        (some ⟨none, some [("K", JSVal.str "y")], none, []⟩) "K" = true
    ∧ getEnvVar ⟨none, none, none, none⟩ "K"
        (some ⟨none, some [("K", JSVal.str "y")], none, []⟩) = none
    ∧ getEnvVarSync ⟨none, none, none, none⟩ "K"
        (some ⟨none, some [("K", JSVal.str "y")], none, []⟩)
      = some (JSVal.str "y")
    ∧ some (JSVal.str "y") ≠ (none : Option JSVal) := by
  decide

/-- C5 (amended): for every key absent from the three configuration
sources (the discovered edge-runtime binding set, `import.meta.env`,
`process.env`), `getEnvVar` returns `undefined` for every context object;
`getEnvVarSync` returns `undefined` provided the key is additionally
absent from every context attachment point, since its context probes are
keyed by the name rather than by binding-set discovery.  Both functions
are total in the model, so neither can throw. -/
theorem c5_resolver_absent (w : World) (c : Option Ctx) (k : String)
    (hsrc : absentFromSources w c k = true) :
    getEnvVar w k c = none
    ∧ (ctxAbsent c k = true → getEnvVarSync w k c = none) := by
  refine ⟨getEnvVar_none_of_absentFromSources w c k hsrc, fun hctx => ?_⟩
  unfold absentFromSources at hsrc
  simp only [Bool.and_eq_true, Bool.not_eq_true'] at hsrc
  obtain ⟨⟨_, hmeta⟩, hproc⟩ := hsrc
  exact getEnvVarSync_none_of_ctxAbsent w c k hctx hmeta hproc

/-- C5 (witness): the absent key `K` resolves to `undefined` through both
functions under a context carrying a `DB` marker but no `K`. -/
theorem c5_resolver_absent_witness :
    getEnvVar
        ⟨some [("A", JSVal.num 1)], some [("B", JSVal.num 2)],
          some [("C", JSVal.num 3)], none⟩ "K"
        (some ⟨some [("DB", JSVal.num 1)], none, none, []⟩) = none
    ∧ getEnvVarSync
        ⟨some [("A", JSVal.num 1)], some [("B", JSVal.num 2)],
          some [("C", JSVal.num 3)], none⟩ "K"
        (some ⟨some [("DB", JSVal.num 1)], none, none, []⟩) = none :=
  ⟨(c5_resolver_absent
      ⟨some [("A", JSVal.num 1)], some [("B", JSVal.num 2)],
        some [("C", JSVal.num 3)], none⟩
      (some ⟨some [("DB", JSVal.num 1)], none, none, []⟩) "K" (by decide)).1,
    (c5_resolver_absent
      ⟨some [("A", JSVal.num 1)], some [("B", JSVal.num 2)],
        some [("C", JSVal.num 3)], none⟩
      (some ⟨some [("DB", JSVal.num 1)], none, none, []⟩) "K" (by decide)).2
      (by decide)⟩

/-- C6: a `getDb()` call in a client execution context
(`typeof window !== 'undefined'`) throws the server-only error and leaves
the process-wide state exactly as it was; the result does not depend on
`dbInstance` or `initPromise` at all, so neither cell is consulted or
written before the throw. -/
theorem c6_client_rejected (s : DbState) (fresh : Nat) :
    getDbPrologue true fresh s
      = (.threw "Database access is server-only", s, false) := rfl

/-- C7: when the discovered edge-runtime binding set defines the requested
key with a falsy value (for example the empty string), `getEnvVar` treats
that source as not providing the key and continues with the shared
build-time-then-process fallback tail. -/
theorem c7_falsy_falls_through (w : World) (c : Option Ctx) (e : Env)
    (k : String) (v : JSVal)
    (hdisc : getCloudflareEnv w c = some e)
    (hk : envLookup e k = some v) (hf : v.truthy = false) :
    getEnvVar w k c = importMetaStep w k := by
  simp [getEnvVar, hdisc, hk, truthyOpt, hf]

/-- C7 (witness): a binding set holding `K = ""` is skipped and resolution
reaches `process.env`, returning `"z"`. -/
theorem c7_falsy_falls_through_witness :
    getEnvVar ⟨some [("K", JSVal.str "")], none, some [("K", JSVal.str "z")], none⟩
        "K" none
      = importMetaStep
          ⟨some [("K", JSVal.str "")], none, some [("K", JSVal.str "z")], none⟩ "K"
    ∧ importMetaStep
        ⟨some [("K", JSVal.str "")], none, some [("K", JSVal.str "z")], none⟩ "K"
      = some (JSVal.str "z") :=
  ⟨c7_falsy_falls_through
      ⟨some [("K", JSVal.str "")], none, some [("K", JSVal.str "z")], none⟩
      none [("K", JSVal.str "")] "K" (JSVal.str "") (by decide) (by decide) (by decide),
    by decide⟩

/-- C8: when `getDb()`'s initializer finds no truthy D1 binding and
`LIBSQL_URL` is absent from every configuration source, the local libsql
client is constructed with the default URL `file:./db/app.db`. -/
theorem c8_default_local_url (w : World)
    (habs : absentEverywhere w w.request "LIBSQL_URL" = true)
    (hd1 : truthyOpt (getD1Binding w w.request) = false) :
    constructDb w
      = .libsql (.str "file:./db/app.db") (initLocalDbToken w w.request) := by
  have hurl : getEnvVar w "LIBSQL_URL" w.request = none :=
    absent_getEnvVar_none w w.request "LIBSQL_URL" habs
  have hurl2 : initLocalDbUrl w w.request = .str "file:./db/app.db" := by
    simp [initLocalDbUrl, hurl]
  unfold constructDb
  cases hb : getD1Binding w w.request with
  | none => rw [hurl2]
  | some v =>
    have hv : v.truthy = false := by
      rw [hb] at hd1; simpa [truthyOpt] using hd1
    simp [hv, hurl2]

/-- C8 (witness): in a world with no sources at all, `getDb()`'s
construction yields the local handle on the default file URL. -/
theorem c8_default_local_url_witness :
    constructDb ⟨none, none, none, none⟩
      = .libsql (.str "file:./db/app.db")
          (initLocalDbToken ⟨none, none, none, none⟩
            (World.mk none none none none).request) :=
  c8_default_local_url ⟨none, none, none, none⟩ (by decide) (by decide)

/-- C9: a truthy value held by the discovered edge-runtime binding set is
returned by `getEnvVar` exactly as it is, without stringification — even
when it is not a string — whereas a defined `import.meta.env` value is
always returned through `String(...)`; hence `getEnvVar` can return a
non-string despite its declared string-or-undefined type. -/
theorem c9_no_stringify_on_cf (w : World) (c : Option Ctx) (e m : Env)
    (k : String) (v u : JSVal)
    (hdisc : getCloudflareEnv w c = some e)
    (hk : envLookup e k = some v) (ht : v.truthy = true) (hns : v.isStr = false)
    (hmk : envLookup m k = some u) :
    getEnvVar w k c = some v ∧ v.isStr = false
    ∧ getEnvVar ⟨none, some m, none, none⟩ k none = some (.str u.jsToString)
    ∧ (JSVal.str u.jsToString).isStr = true := by
  refine ⟨?_, hns, ?_, rfl⟩
  · simp [getEnvVar, hdisc, hk, truthyOpt, ht]
  · simp [getEnvVar, getCloudflareEnv, importMetaStep, hmk]

/-- C9 (witness): a binding set carrying the number `5` for `K` makes
`getEnvVar` return the number itself, while `import.meta.env` carrying the
number `7` resolves to the string `"7"`. -/
theorem c9_no_stringify_on_cf_witness :
    getEnvVar ⟨some [("K", JSVal.num 5)], none, none, none⟩ "K" none
      = some (JSVal.num 5)
    ∧ (JSVal.num 5).isStr = false
    ∧ getEnvVar ⟨none, some [("K", JSVal.num 7)], none, none⟩ "K" none
      = some (.str (JSVal.num 7).jsToString)
    ∧ (JSVal.str (JSVal.num 7).jsToString).isStr = true :=
  c9_no_stringify_on_cf ⟨some [("K", JSVal.num 5)], none, none, none⟩ none
    [("K", JSVal.num 5)] [("K", JSVal.num 7)] "K" (JSVal.num 5) (JSVal.num 7)
    (by decide) (by decide) (by decide) (by decide) (by decide)

/-- C10: when no attachment point of the supplied context carries a truthy
`DB` marker, the context is ignored entirely by the binding-set discovery
shared by `getEnvVar`, `getD1Binding` and `getCloudflareEnvBindings`:
discovery falls through to the ambient-module probe (so the calls behave
exactly as with no context), and in a world where that probe fails the
discovered binding set is `null`. -/
theorem c10_no_marker_ignores_context (w : World) (c : Ctx)
    (h : noDBMarkerInCtx c = true) :
    getCloudflareEnv w (some c) = w.cfModule
    ∧ getD1Binding w (some c) = getD1Binding w none
    ∧ getCloudflareEnvBindings w (some c) = getCloudflareEnvBindings w none
    ∧ getCloudflareEnvBindings
        ⟨none, w.importMetaEnv, w.processEnv, w.request⟩ (some c) = none := by
  have h0 := getCloudflareEnv_of_noMarker w c h
  have h1 := getCloudflareEnv_of_noMarker
    ⟨none, w.importMetaEnv, w.processEnv, w.request⟩ c h
  refine ⟨h0, ?_, ?_, ?_⟩
  · unfold getD1Binding
    rw [h0]
    rfl
  · unfold getCloudflareEnvBindings
    rw [h0]
    rfl
  · simpa [getCloudflareEnvBindings] using h1

/-- C10 (witness): a context populated at every attachment point but with
no `DB` marker anywhere is ignored by discovery. -/
theorem c10_no_marker_ignores_context_witness :
    getCloudflareEnv ⟨some [("DB", JSVal.obj 0)], none, none, none⟩
        (some ⟨some [("K", JSVal.str "x")], some [("DB", JSVal.num 0)],
          some [("DB", JSVal.str "")], [("J", JSVal.num 3)]⟩)
      = (⟨some [("DB", JSVal.obj 0)], none, none, none⟩ : World).cfModule
    ∧ getD1Binding ⟨some [("DB", JSVal.obj 0)], none, none, none⟩
        (some ⟨some [("K", JSVal.str "x")], some [("DB", JSVal.num 0)],
          some [("DB", JSVal.str "")], [("J", JSVal.num 3)]⟩)
      = getD1Binding ⟨some [("DB", JSVal.obj 0)], none, none, none⟩ none
    ∧ getCloudflareEnvBindings ⟨some [("DB", JSVal.obj 0)], none, none, none⟩
        (some ⟨some [("K", JSVal.str "x")], some [("DB", JSVal.num 0)],
          some [("DB", JSVal.str "")], [("J", JSVal.num 3)]⟩)
      = getCloudflareEnvBindings
          ⟨some [("DB", JSVal.obj 0)], none, none, none⟩ none
    ∧ getCloudflareEnvBindings
        ⟨none, (World.mk (some [("DB", JSVal.obj 0)]) none none none).importMetaEnv,
          (World.mk (some [("DB", JSVal.obj 0)]) none none none).processEnv,
          (World.mk (some [("DB", JSVal.obj 0)]) none none none).request⟩
        (some ⟨some [("K", JSVal.str "x")], some [("DB", JSVal.num 0)],
          some [("DB", JSVal.str "")], [("J", JSVal.num 3)]⟩)
      = none :=
  c10_no_marker_ignores_context
    ⟨some [("DB", JSVal.obj 0)], none, none, none⟩
    ⟨some [("K", JSVal.str "x")], some [("DB", JSVal.num 0)],
      some [("DB", JSVal.str "")], [("J", JSVal.num 3)]⟩
    (by decide)

/-- C6 (witness): the client-context throw at the fresh state. -/
theorem c6_client_rejected_witness :
    getDbPrologue true 4 { dbInstance := none, initPromise := none }
      = (.threw "Database access is server-only",
         { dbInstance := none, initPromise := none }, false) :=
  c6_client_rejected { dbInstance := none, initPromise := none } 4
